import Mathlib

/-!
Verification of the Button debounce / press-classification state machine
(`src/Button/Button.c`, `src/Button/Button.h`) against its specification.

The C code is shallowly embedded: the `Button` struct becomes a Lean
structure, `Button_Tick` a pure state-transition function, and the
initialization and flag accessors pure functions on the structure.  The
`uint16_t` counters are modelled as `Nat` with an explicit `% 2 ^ 16` on
every increment; the C init functions mutate a caller-allocated struct, so
they are modelled as functions of the prior state that update exactly the
fields the C code writes.
-/

namespace ButtonLib

/-- `enum ButtonState` from Button.h. -/
inductive ButtonState where
  | BUTTON_UP
  | DEBOUNCE_PRESS
  | BUTTON_DOWN
  | DEBOUNCE_RELEASE
deriving DecidableEq, Repr

/-- `enum ButtonType` from Button.h. -/
inductive ButtonType where
  | SHORT_PRESS_TYPE
  | LONG_PRESS_TYPE
deriving DecidableEq, Repr

/-- The bit-field flag register of `struct Button` (four one-bit flags). -/
structure ButtonFlags where
  buttonDownEvent : Bool
  shortPress : Bool
  longPress : Bool
  buttonUpEvent : Bool
deriving DecidableEq, Repr

/-- `struct Button` from Button.h.  The five `uint16_t` fields are `Nat`;
increments apply `% 2 ^ 16` where the C code could wrap. -/
structure Button where
  pressDebouncePeriod : Nat
  releaseDebouncePeriod : Nat
  longPressPeriod : Nat
  longPressCounter : Nat
  debounceCounter : Nat
  buttonState : ButtonState
  buttonType : ButtonType
  flags : ButtonFlags
deriving DecidableEq, Repr

/-- `uint16_t` increment: `x++` with wrap-around at `2 ^ 16`. -/
def u16succ (n : Nat) : Nat := (n + 1) % 65536

/-- `Button_InitWithLongPressMs`: derives the three tick-count periods by
truncating division when `tickMs != 0` (otherwise the prior field values
are retained), forces `SHORT_PRESS_TYPE` when the derived long-press
period is zero, and sets the state to `BUTTON_UP`.  Fields the C code does
not write (the counters, the flags) keep their prior values. -/
def Button_InitWithLongPressMs (self : Button)
    (pressDebounceMs releaseDebounceMs longPressMs tickMs : Nat) : Button :=
  let s1 :=
    if tickMs ≠ 0 then
      { self with
          pressDebouncePeriod := pressDebounceMs / tickMs
          releaseDebouncePeriod := releaseDebounceMs / tickMs
          longPressPeriod := longPressMs / tickMs }
    else self
  let s2 :=
    if s1.longPressPeriod = 0 then
      { s1 with buttonType := ButtonType.SHORT_PRESS_TYPE }
    else
      { s1 with buttonType := ButtonType.LONG_PRESS_TYPE }
  { s2 with buttonState := ButtonState.BUTTON_UP }

/-- `Button_InitMs`: delegates with a long-press duration of zero. -/
def Button_InitMs (self : Button)
    (pressDebounceMs releaseDebounceMs tickMs : Nat) : Button :=
  Button_InitWithLongPressMs self pressDebounceMs releaseDebounceMs 0 tickMs

/-- `Button_Tick` from Button.c: one step of the debounce /
press-classification state machine on the sampled boolean. -/
def Button_Tick (self : Button) (isPressed : Bool) : Button :=
  match self.buttonState with
  | ButtonState.BUTTON_UP =>
    if isPressed then
      if self.pressDebouncePeriod = 0 then
        let f :=
          if self.buttonType = ButtonType.SHORT_PRESS_TYPE then
            { self.flags with shortPress := true }
          else self.flags
        { self with
            flags := { f with buttonDownEvent := true }
            buttonState := ButtonState.BUTTON_DOWN
            longPressCounter := 0 }
      else
        { self with
            buttonState := ButtonState.DEBOUNCE_PRESS
            debounceCounter := 0 }
    else self
  | ButtonState.DEBOUNCE_PRESS =>
    let c := u16succ self.debounceCounter
    if c = self.pressDebouncePeriod then
      if isPressed then
        let f :=
          if self.buttonType = ButtonType.SHORT_PRESS_TYPE then
            { self.flags with shortPress := true }
          else self.flags
        { self with
            debounceCounter := c
            flags := { f with buttonDownEvent := true }
            buttonState := ButtonState.BUTTON_DOWN
            longPressCounter := 0 }
      else
        { self with
            debounceCounter := c
            buttonState := ButtonState.BUTTON_UP }
    else
      { self with debounceCounter := c }
  | ButtonState.BUTTON_DOWN =>
    -- the long-press timer update runs first, then the release check,
    -- mirroring the sequential mutation in the C body
    let s1 :=
      if isPressed = true ∧ self.buttonType = ButtonType.LONG_PRESS_TYPE then
        if self.longPressCounter < self.longPressPeriod then
          let c := u16succ self.longPressCounter
          if c = self.longPressPeriod then
            { self with
                longPressCounter := c
                flags := { self.flags with longPress := true } }
          else
            { self with longPressCounter := c }
        else self
      else self
    if isPressed = false then
      if s1.releaseDebouncePeriod = 0 then
        let f :=
          if s1.buttonType = ButtonType.LONG_PRESS_TYPE ∧
              s1.longPressCounter < s1.longPressPeriod then
            { s1.flags with shortPress := true }
          else s1.flags
        { s1 with
            flags := { f with buttonUpEvent := true }
            buttonState := ButtonState.BUTTON_UP }
      else
        { s1 with
            buttonState := ButtonState.DEBOUNCE_RELEASE
            debounceCounter := 0 }
    else s1
  | ButtonState.DEBOUNCE_RELEASE =>
    let c := u16succ self.debounceCounter
    if c = self.releaseDebouncePeriod then
      if isPressed = false then
        let f :=
          if self.buttonType = ButtonType.LONG_PRESS_TYPE ∧
              self.longPressCounter < self.longPressPeriod then
            { self.flags with shortPress := true }
          else self.flags
        { self with
            debounceCounter := c
            flags := { f with buttonUpEvent := true }
            buttonState := ButtonState.BUTTON_UP }
      else
        -- the C source moves to BUTTON_UP here as well (its comment claims
        -- the button is not pressed, although this branch runs only when
        -- the sample is asserted)
        { self with
            debounceCounter := c
            buttonState := ButtonState.BUTTON_UP }
    else
      { self with debounceCounter := c }

/-- Iterated `Button_Tick` over a list of per-tick samples. -/
def Button_Ticks (self : Button) (samples : List Bool) : Button :=
  samples.foldl Button_Tick self

/-- `Button_GetShortPress`. -/
def Button_GetShortPress (self : Button) : Bool := self.flags.shortPress

/-- `Button_GetLongPress`. -/
def Button_GetLongPress (self : Button) : Bool := self.flags.longPress

/-- `Button_GetButtonDownEvent`. -/
def Button_GetButtonDownEvent (self : Button) : Bool := self.flags.buttonDownEvent

/-- `Button_GetButtonUpEvent`. -/
def Button_GetButtonUpEvent (self : Button) : Bool := self.flags.buttonUpEvent

/-- `Button_ClearShortPressFlag`. -/
def Button_ClearShortPressFlag (self : Button) : Button :=
  { self with flags := { self.flags with shortPress := false } }

/-- `Button_ClearLongPressFlag`. -/
def Button_ClearLongPressFlag (self : Button) : Button :=
  { self with flags := { self.flags with longPress := false } }

/-- `Button_ClearButtonDownFlag`. -/
def Button_ClearButtonDownFlag (self : Button) : Button :=
  { self with flags := { self.flags with buttonDownEvent := false } }

/-- `Button_ClearButtonUpFlag`. -/
def Button_ClearButtonUpFlag (self : Button) : Button :=
  { self with flags := { self.flags with buttonUpEvent := false } }

/-- A zeroed caller-allocated `Button` struct, the usual state of a C
static-storage instance before initialization. -/
def zeroButton : Button where
  pressDebouncePeriod := 0
  releaseDebouncePeriod := 0
  longPressPeriod := 0
  longPressCounter := 0
  debounceCounter := 0
  buttonState := ButtonState.BUTTON_UP
  buttonType := ButtonType.SHORT_PRESS_TYPE
  flags := { buttonDownEvent := false, shortPress := false,
             longPress := false, buttonUpEvent := false }

end ButtonLib

namespace ButtonLib

/-! ## Concrete states used by the closed theorems and witnesses -/

/-- A Held-state instance with a release-debounce period of two ticks. -/
def heldRd2 : Button :=
  { zeroButton with releaseDebouncePeriod := 2,
                    buttonState := ButtonState.BUTTON_DOWN }

/-- A freshly initialized instance with zero press debounce, one tick of
release debounce and no long press. -/
def c2b0 : Button := Button_InitWithLongPressMs zeroButton 0 1 0 1

/-- A freshly initialized Long-Press-mode instance with zero debounce
periods and a three-tick long-press threshold. -/
def lp3b0 : Button := Button_InitWithLongPressMs zeroButton 0 0 3 1

end ButtonLib

namespace ButtonLib

/-- C1: the claim says that when `debounceCounter` reaches
`releaseDebounceTicks` in the DebouncingRelease state on a tick whose
sample is re-asserted, the machine returns to Held.  The code instead
moves to `BUTTON_UP` (Released): from Held with a release-debounce period
of 2, the samples [deasserted, asserted, asserted] end in `BUTTON_UP`,
not `BUTTON_DOWN` (the no-buttonUpEvent part does hold). -/
theorem C1_release_bounce_divergence :
    (Button_Ticks heldRd2 [false, true, true]).buttonState =
      ButtonState.BUTTON_UP ∧
    (Button_Ticks heldRd2 [false, true, true]).buttonState ≠
      ButtonState.BUTTON_DOWN ∧
    (Button_Ticks heldRd2 [false, true, true]).flags.buttonUpEvent = false := by
  decide

/-- C2: counterexample to down/up event alternation.  With zero press
debounce and one tick of release debounce, a press raises buttonDownEvent;
after the caller clears it, a transient release bounce
([deasserted, asserted]) silently returns the machine to Released without
ever raising buttonUpEvent, and the next asserted tick raises
buttonDownEvent a second time — two down raises with no up raise between
them. -/
theorem C2_double_down_event_without_up :
    (Button_Ticks c2b0 [true]).flags.buttonDownEvent = true ∧
    (Button_ClearButtonDownFlag
      (Button_ClearShortPressFlag
        (Button_Ticks c2b0 [true]))).flags.buttonDownEvent = false ∧
    (Button_Ticks
      (Button_ClearButtonDownFlag
        (Button_ClearShortPressFlag
          (Button_Ticks c2b0 [true]))) [false]).flags.buttonUpEvent = false ∧
    (Button_Ticks
      (Button_ClearButtonDownFlag
        (Button_ClearShortPressFlag
          (Button_Ticks c2b0 [true]))) [false, true]).flags.buttonDownEvent = false ∧
    (Button_Ticks
      (Button_ClearButtonDownFlag
        (Button_ClearShortPressFlag
          (Button_Ticks c2b0 [true]))) [false, true]).flags.buttonUpEvent = false ∧
    (Button_Ticks
      (Button_ClearButtonDownFlag
        (Button_ClearShortPressFlag
          (Button_Ticks c2b0 [true]))) [false, true, true]).flags.buttonDownEvent = true ∧
    (Button_Ticks
      (Button_ClearButtonDownFlag
        (Button_ClearShortPressFlag
          (Button_Ticks c2b0 [true]))) [false, true, true]).flags.buttonUpEvent = false := by
  decide

/-- C3: in Long-Press mode with zero debounce periods and a three-tick
long-press threshold, the samples [asserted ×4, deasserted] raise
longPress exactly at the fourth asserted tick (the third tick after
entering Held, when longPressCounter reaches 3), keep shortPress false
throughout, and raise buttonUpEvent on the deasserted tick. -/
theorem C3_long_press_trace :
    (Button_Ticks lp3b0 [true]).buttonState = ButtonState.BUTTON_DOWN ∧
    (Button_Ticks lp3b0 [true]).flags.buttonDownEvent = true ∧
    (Button_Ticks lp3b0 [true]).flags.longPress = false ∧
    (Button_Ticks lp3b0 [true, true]).flags.longPress = false ∧
    (Button_Ticks lp3b0 [true, true, true]).flags.longPress = false ∧
    (Button_Ticks lp3b0 [true, true, true]).longPressCounter = 2 ∧
    (Button_Ticks lp3b0 [true, true, true, true]).flags.longPress = true ∧
    (Button_Ticks lp3b0 [true, true, true, true]).longPressCounter = 3 ∧
    (Button_Ticks lp3b0 [true]).flags.shortPress = false ∧
    (Button_Ticks lp3b0 [true, true]).flags.shortPress = false ∧
    (Button_Ticks lp3b0 [true, true, true]).flags.shortPress = false ∧
    (Button_Ticks lp3b0 [true, true, true, true]).flags.shortPress = false ∧
    (Button_Ticks lp3b0 [true, true, true, true]).flags.buttonUpEvent = false ∧
    (Button_Ticks lp3b0 [true, true, true, true, false]).flags.shortPress = false ∧
    (Button_Ticks lp3b0 [true, true, true, true, false]).flags.buttonUpEvent = true ∧
    (Button_Ticks lp3b0 [true, true, true, true, false]).flags.longPress = true := by
  decide

/-- C8: initialization with a positive tick interval derives all three
tick-count fields by truncating integer division of the millisecond
arguments, for both initialization functions. -/
theorem C8_init_truncating_division (s : Button) (p r l t : Nat) (ht : 0 < t) :
    (Button_InitWithLongPressMs s p r l t).pressDebouncePeriod = p / t ∧
    (Button_InitWithLongPressMs s p r l t).releaseDebouncePeriod = r / t ∧
    (Button_InitWithLongPressMs s p r l t).longPressPeriod = l / t ∧
    (Button_InitMs s p r t).pressDebouncePeriod = p / t ∧
    (Button_InitMs s p r t).releaseDebouncePeriod = r / t ∧
    (Button_InitMs s p r t).longPressPeriod = 0 / t := by
  have ht' : t ≠ 0 := Nat.pos_iff_ne_zero.mp ht
  simp only [Button_InitMs, Button_InitWithLongPressMs, if_pos ht']
  split <;> simp

/-- Witness for C8 at a concrete input. -/
theorem C8_init_truncating_division_witness :
    (Button_InitWithLongPressMs zeroButton 25 13 900 10).pressDebouncePeriod = 25 / 10 ∧
    (Button_InitWithLongPressMs zeroButton 25 13 900 10).releaseDebouncePeriod = 13 / 10 ∧
    (Button_InitWithLongPressMs zeroButton 25 13 900 10).longPressPeriod = 900 / 10 ∧
    (Button_InitMs zeroButton 25 13 10).pressDebouncePeriod = 25 / 10 ∧
    (Button_InitMs zeroButton 25 13 10).releaseDebouncePeriod = 13 / 10 ∧
    (Button_InitMs zeroButton 25 13 10).longPressPeriod = 0 / 10 :=
  C8_init_truncating_division zeroButton 25 13 900 10 (by decide)

/-- C9: whenever initialization leaves the long-press period at zero, the
resulting mode is Short-Press, for either initialization function. -/
theorem C9_zero_long_press_forces_short_mode (s : Button) (p r l t : Nat) :
    ((Button_InitWithLongPressMs s p r l t).longPressPeriod = 0 →
      (Button_InitWithLongPressMs s p r l t).buttonType =
        ButtonType.SHORT_PRESS_TYPE) ∧
    ((Button_InitMs s p r t).longPressPeriod = 0 →
      (Button_InitMs s p r t).buttonType = ButtonType.SHORT_PRESS_TYPE) := by
  constructor
  · intro h
    simp only [Button_InitWithLongPressMs] at h ⊢
    split at h <;> split at h <;> simp_all
  · intro h
    simp only [Button_InitMs, Button_InitWithLongPressMs] at h ⊢
    split at h <;> split at h <;> simp_all

/-- Witness for C9: a long-press request that truncates to zero ticks
(500 ms at a 600 ms tick) yields Short-Press mode. -/
theorem C9_zero_long_press_forces_short_mode_witness :
    (Button_InitWithLongPressMs zeroButton 0 0 500 600).buttonType =
      ButtonType.SHORT_PRESS_TYPE :=
  (C9_zero_long_press_forces_short_mode zeroButton 0 0 500 600).1 (by decide)

end ButtonLib

namespace ButtonLib

/-- C4: in Long-Press mode in the Held state with a zero release-debounce
period, a deasserted sample raises buttonUpEvent, moves to Released, and
raises shortPress exactly when longPressCounter is still below the
long-press threshold; longPress stays false in that case. -/
theorem C4_held_immediate_release (s : Button)
    (hst : s.buttonState = ButtonState.BUTTON_DOWN)
    (hty : s.buttonType = ButtonType.LONG_PRESS_TYPE)
    (hrd : s.releaseDebouncePeriod = 0)
    (hsp : s.flags.shortPress = false)
    (hlp : s.flags.longPress = false) :
    (Button_Tick s false).flags.buttonUpEvent = true ∧
    (Button_Tick s false).buttonState = ButtonState.BUTTON_UP ∧
    ((Button_Tick s false).flags.shortPress = true ↔
      s.longPressCounter < s.longPressPeriod) ∧
    (Button_Tick s false).flags.longPress = false := by
  by_cases hlt : s.longPressCounter < s.longPressPeriod <;>
    simp [Button_Tick, hst, hty, hrd, hsp, hlp, hlt]

/-- A Held-state Long-Press-mode instance one tick into a three-tick
long-press window, with zero release debounce. -/
def heldLp1 : Button :=
  { zeroButton with buttonState := ButtonState.BUTTON_DOWN,
                    buttonType := ButtonType.LONG_PRESS_TYPE,
                    longPressPeriod := 3, longPressCounter := 1 }

/-- Witness for C4 at a concrete early-release state. -/
theorem C4_held_immediate_release_witness :
    (Button_Tick heldLp1 false).flags.buttonUpEvent = true ∧
    (Button_Tick heldLp1 false).buttonState = ButtonState.BUTTON_UP ∧
    ((Button_Tick heldLp1 false).flags.shortPress = true ↔
      heldLp1.longPressCounter < heldLp1.longPressPeriod) ∧
    (Button_Tick heldLp1 false).flags.longPress = false :=
  C4_held_immediate_release heldLp1 rfl rfl rfl rfl rfl

/-- C10: while debouncing, a tick whose incremented counter has not
reached the threshold only increments the counter — the sampled boolean
is ignored entirely; on the tick where the counter reaches the threshold,
the press is accepted (buttonDownEvent, Held) exactly when the sample is
asserted, and the release is accepted (buttonUpEvent) exactly when the
sample is deasserted. -/
theorem C10_debounce_sample_independence (s : Button) (b : Bool) :
    (s.buttonState = ButtonState.DEBOUNCE_PRESS →
      u16succ s.debounceCounter ≠ s.pressDebouncePeriod →
      Button_Tick s b = { s with debounceCounter := u16succ s.debounceCounter }) ∧
    (s.buttonState = ButtonState.DEBOUNCE_RELEASE →
      u16succ s.debounceCounter ≠ s.releaseDebouncePeriod →
      Button_Tick s b = { s with debounceCounter := u16succ s.debounceCounter }) ∧
    (s.buttonState = ButtonState.DEBOUNCE_PRESS →
      u16succ s.debounceCounter = s.pressDebouncePeriod →
      s.flags.buttonDownEvent = false →
      ((Button_Tick s b).flags.buttonDownEvent = true ↔ b = true) ∧
      ((Button_Tick s b).buttonState = ButtonState.BUTTON_DOWN ↔ b = true)) ∧
    (s.buttonState = ButtonState.DEBOUNCE_RELEASE →
      u16succ s.debounceCounter = s.releaseDebouncePeriod →
      s.flags.buttonUpEvent = false →
      ((Button_Tick s b).flags.buttonUpEvent = true ↔ b = false)) := by
  refine ⟨fun hst hne => ?_, fun hst hne => ?_,
    fun hst heq hfl => ?_, fun hst heq hfl => ?_⟩
  · cases b <;> simp [Button_Tick, hst, hne]
  · cases b <;> simp [Button_Tick, hst, hne]
  · cases b <;> simp [Button_Tick, hst, heq, hfl]
  · cases b <;> simp [Button_Tick, hst, heq, hfl]

/-- A mid-debounce press state: threshold 5, counter 1. -/
def dpMid : Button :=
  { zeroButton with buttonState := ButtonState.DEBOUNCE_PRESS,
                    pressDebouncePeriod := 5, debounceCounter := 1 }

/-- A press-debounce state one tick before the threshold of 5. -/
def dpEnd : Button :=
  { zeroButton with buttonState := ButtonState.DEBOUNCE_PRESS,
                    pressDebouncePeriod := 5, debounceCounter := 4 }

/-- A release-debounce state one tick before the threshold of 4. -/
def drEnd : Button :=
  { zeroButton with buttonState := ButtonState.DEBOUNCE_RELEASE,
                    releaseDebouncePeriod := 4, debounceCounter := 3 }

/-- Witness for C10 at concrete mid-debounce and threshold states. -/
theorem C10_debounce_sample_independence_witness :
    Button_Tick dpMid false =
      { dpMid with debounceCounter := u16succ dpMid.debounceCounter } ∧
    ((Button_Tick dpEnd true).flags.buttonDownEvent = true ↔ true = true) ∧
    ((Button_Tick dpEnd true).buttonState = ButtonState.BUTTON_DOWN ↔ true = true) ∧
    ((Button_Tick drEnd true).flags.buttonUpEvent = true ↔ true = false) :=
  ⟨(C10_debounce_sample_independence dpMid false).1 rfl (by decide),
   ((C10_debounce_sample_independence dpEnd true).2.2.1 rfl (by decide) rfl).1,
   ((C10_debounce_sample_independence dpEnd true).2.2.1 rfl (by decide) rfl).2,
   (C10_debounce_sample_independence drEnd true).2.2.2 rfl (by decide) rfl⟩

end ButtonLib

namespace ButtonLib

/-- One `Button_Tick` call never lowers any of the four event flags. -/
theorem Button_Tick_flag_mono (s : Button) (b : Bool) :
    (s.flags.buttonDownEvent = true →
      (Button_Tick s b).flags.buttonDownEvent = true) ∧
    (s.flags.shortPress = true → (Button_Tick s b).flags.shortPress = true) ∧
    (s.flags.longPress = true → (Button_Tick s b).flags.longPress = true) ∧
    (s.flags.buttonUpEvent = true →
      (Button_Tick s b).flags.buttonUpEvent = true) := by
  refine ⟨fun h => ?_, fun h => ?_, fun h => ?_, fun h => ?_⟩ <;>
    rcases hst : s.buttonState <;> cases b <;>
      simp [Button_Tick, hst, h] <;>
      (try split_ifs) <;> simp_all

/-- Any sequence of `Button_Tick` calls never lowers any event flag. -/
theorem Button_Ticks_flag_mono (s : Button) (bs : List Bool) :
    (s.flags.buttonDownEvent = true →
      (Button_Ticks s bs).flags.buttonDownEvent = true) ∧
    (s.flags.shortPress = true → (Button_Ticks s bs).flags.shortPress = true) ∧
    (s.flags.longPress = true → (Button_Ticks s bs).flags.longPress = true) ∧
    (s.flags.buttonUpEvent = true →
      (Button_Ticks s bs).flags.buttonUpEvent = true) := by
  induction bs generalizing s with
  | nil => exact ⟨id, id, id, id⟩
  | cons b bs ih =>
    have h1 := Button_Tick_flag_mono s b
    have h2 := ih (Button_Tick s b)
    exact ⟨fun h => h2.1 (h1.1 h), fun h => h2.2.1 (h1.2.1 h),
      fun h => h2.2.2.1 (h1.2.2.1 h), fun h => h2.2.2.2 (h1.2.2.2 h)⟩

/-- C5: the four event flags are sticky — a raised flag survives any
number of further tick calls — and each explicit clear accessor zeroes
exactly its own flag, leaving the other three (and the rest of the
instance) untouched. -/
theorem C5_flags_sticky_until_cleared (s : Button) (bs : List Bool) :
    (s.flags.buttonDownEvent = true →
      (Button_Ticks s bs).flags.buttonDownEvent = true) ∧
    (s.flags.shortPress = true → (Button_Ticks s bs).flags.shortPress = true) ∧
    (s.flags.longPress = true → (Button_Ticks s bs).flags.longPress = true) ∧
    (s.flags.buttonUpEvent = true →
      (Button_Ticks s bs).flags.buttonUpEvent = true) ∧
    (Button_ClearShortPressFlag s).flags.shortPress = false ∧
    (Button_ClearShortPressFlag s).flags.buttonDownEvent = s.flags.buttonDownEvent ∧
    (Button_ClearShortPressFlag s).flags.longPress = s.flags.longPress ∧
    (Button_ClearShortPressFlag s).flags.buttonUpEvent = s.flags.buttonUpEvent ∧
    (Button_ClearLongPressFlag s).flags.longPress = false ∧
    (Button_ClearLongPressFlag s).flags.buttonDownEvent = s.flags.buttonDownEvent ∧
    (Button_ClearLongPressFlag s).flags.shortPress = s.flags.shortPress ∧
    (Button_ClearLongPressFlag s).flags.buttonUpEvent = s.flags.buttonUpEvent ∧
    (Button_ClearButtonDownFlag s).flags.buttonDownEvent = false ∧
    (Button_ClearButtonDownFlag s).flags.shortPress = s.flags.shortPress ∧
    (Button_ClearButtonDownFlag s).flags.longPress = s.flags.longPress ∧
    (Button_ClearButtonDownFlag s).flags.buttonUpEvent = s.flags.buttonUpEvent ∧
    (Button_ClearButtonUpFlag s).flags.buttonUpEvent = false ∧
    (Button_ClearButtonUpFlag s).flags.buttonDownEvent = s.flags.buttonDownEvent ∧
    (Button_ClearButtonUpFlag s).flags.shortPress = s.flags.shortPress ∧
    (Button_ClearButtonUpFlag s).flags.longPress = s.flags.longPress := by
  have hm := Button_Ticks_flag_mono s bs
  exact ⟨hm.1, hm.2.1, hm.2.2.1, hm.2.2.2,
    rfl, rfl, rfl, rfl, rfl, rfl, rfl, rfl,
    rfl, rfl, rfl, rfl, rfl, rfl, rfl, rfl⟩

/-- A Held-state instance with all four event flags raised. -/
def allFlagsHeld : Button :=
  { zeroButton with buttonState := ButtonState.BUTTON_DOWN,
                    releaseDebouncePeriod := 2,
                    flags := { buttonDownEvent := true, shortPress := true,
                               longPress := true, buttonUpEvent := true } }

/-- Witness for C5: all four raised flags survive three further ticks,
and clearing shortPress leaves longPress untouched. -/
theorem C5_flags_sticky_until_cleared_witness :
    (Button_Ticks allFlagsHeld [false, true, false]).flags.buttonDownEvent = true ∧
    (Button_Ticks allFlagsHeld [false, true, false]).flags.shortPress = true ∧
    (Button_Ticks allFlagsHeld [false, true, false]).flags.longPress = true ∧
    (Button_Ticks allFlagsHeld [false, true, false]).flags.buttonUpEvent = true ∧
    (Button_ClearShortPressFlag allFlagsHeld).flags.shortPress = false ∧
    (Button_ClearShortPressFlag allFlagsHeld).flags.longPress =
      allFlagsHeld.flags.longPress :=
  ⟨(C5_flags_sticky_until_cleared allFlagsHeld [false, true, false]).1 rfl,
   (C5_flags_sticky_until_cleared allFlagsHeld [false, true, false]).2.1 rfl,
   (C5_flags_sticky_until_cleared allFlagsHeld [false, true, false]).2.2.1 rfl,
   (C5_flags_sticky_until_cleared allFlagsHeld [false, true, false]).2.2.2.1 rfl,
   (C5_flags_sticky_until_cleared allFlagsHeld [false, true, false]).2.2.2.2.1,
   (C5_flags_sticky_until_cleared allFlagsHeld [false, true, false]).2.2.2.2.2.2.1⟩

end ButtonLib

namespace ButtonLib

/-- A state is reachable when it arises from some initialization applied
to some prior instance, followed by some sequence of tick samples. -/
def Reachable (s : Button) : Prop :=
  ∃ s₀ pMs rMs lMs tMs samples,
    s = Button_Ticks (Button_InitWithLongPressMs s₀ pMs rMs lMs tMs) samples

/-- Counter invariant: in a debounce state the counter is strictly below
its threshold, and in the Held state the long-press counter is at most
the long-press threshold. -/
def CounterInv (s : Button) : Prop :=
  (s.buttonState = ButtonState.DEBOUNCE_PRESS →
    s.debounceCounter < s.pressDebouncePeriod) ∧
  (s.buttonState = ButtonState.DEBOUNCE_RELEASE →
    s.debounceCounter < s.releaseDebouncePeriod) ∧
  (s.buttonState = ButtonState.BUTTON_DOWN →
    s.longPressCounter ≤ s.longPressPeriod)

/-- `Button_Tick` preserves the counter invariant. -/
theorem Button_Tick_preserves_CounterInv (s : Button) (b : Bool)
    (h : CounterInv s) : CounterInv (Button_Tick s b) := by
  obtain ⟨h1, h2, h3⟩ := h
  unfold CounterInv
  rcases hst : s.buttonState <;> cases b <;>
    simp_all [Button_Tick, hst, u16succ] <;>
    (try split_ifs) <;>
    simp_all <;> omega

/-- Any tick sequence preserves the counter invariant. -/
theorem Button_Ticks_preserves_CounterInv (s : Button) (bs : List Bool)
    (h : CounterInv s) : CounterInv (Button_Ticks s bs) := by
  induction bs generalizing s with
  | nil => exact h
  | cons b bs ih => exact ih (Button_Tick s b) (Button_Tick_preserves_CounterInv s b h)

/-- Initialization establishes the counter invariant (the machine starts
in `BUTTON_UP`). -/
theorem Button_Init_CounterInv (s : Button) (p r l t : Nat) :
    CounterInv (Button_InitWithLongPressMs s p r l t) := by
  unfold CounterInv Button_InitWithLongPressMs
  split_ifs <;> simp

/-- Every reachable state satisfies the counter invariant. -/
theorem Reachable_CounterInv (s : Button) (h : Reachable s) : CounterInv s := by
  obtain ⟨s₀, p, r, l, t, bs, rfl⟩ := h
  exact Button_Ticks_preserves_CounterInv _ bs (Button_Init_CounterInv s₀ p r l t)

/-- The long-press counter strictly increases in a tick only from the
Held state with the sample asserted and the counter still below the
threshold. -/
theorem Button_Tick_lpc_increase (s : Button) (b : Bool)
    (h : s.longPressCounter < (Button_Tick s b).longPressCounter) :
    s.buttonState = ButtonState.BUTTON_DOWN ∧ b = true ∧
      s.longPressCounter < s.longPressPeriod := by
  rcases hst : s.buttonState <;> cases b <;>
    simp_all [Button_Tick, hst, u16succ] <;>
    (try split_ifs at h) <;> simp_all <;> omega

/-- Once the long-press counter has reached the threshold, a tick in the
Held state leaves it unchanged. -/
theorem Button_Tick_lpc_freeze (s : Button) (b : Bool)
    (hst : s.buttonState = ButtonState.BUTTON_DOWN)
    (hfr : s.longPressCounter = s.longPressPeriod) :
    (Button_Tick s b).longPressCounter = s.longPressCounter := by
  cases b <;> simp [Button_Tick, hst, hfr] <;>
    (try split_ifs) <;> simp_all <;> omega

/-- A tick leaves a debounce state only when the incremented counter
equals the configured threshold. -/
theorem Button_Tick_debounce_exit (s : Button) (b : Bool) :
    (s.buttonState = ButtonState.DEBOUNCE_PRESS →
      (Button_Tick s b).buttonState ≠ ButtonState.DEBOUNCE_PRESS →
      u16succ s.debounceCounter = s.pressDebouncePeriod) ∧
    (s.buttonState = ButtonState.DEBOUNCE_RELEASE →
      (Button_Tick s b).buttonState ≠ ButtonState.DEBOUNCE_RELEASE →
      u16succ s.debounceCounter = s.releaseDebouncePeriod) := by
  refine ⟨fun hst hne => ?_, fun hst hne => ?_⟩ <;>
    by_cases hc : u16succ s.debounceCounter =
        (if s.buttonState = ButtonState.DEBOUNCE_PRESS then
          s.pressDebouncePeriod else s.releaseDebouncePeriod) <;>
    simp_all [Button_Tick, hst] <;> (try split_ifs at hne) <;> simp_all

/-- C6: in every reachable state the debounce counter stays at or below
the threshold of the debounce state it counts in, reaching the threshold
is the sole trigger of the transition out of a debounce state, and the
long-press counter advances only in the Held state with the sample
asserted, never exceeds the long-press threshold, and freezes once it
reaches it. -/
theorem C6_counter_invariants (s : Button) (hr : Reachable s) :
    (s.buttonState = ButtonState.DEBOUNCE_PRESS →
      s.debounceCounter ≤ s.pressDebouncePeriod) ∧
    (s.buttonState = ButtonState.DEBOUNCE_RELEASE →
      s.debounceCounter ≤ s.releaseDebouncePeriod) ∧
    (∀ b, s.buttonState = ButtonState.DEBOUNCE_PRESS →
      (Button_Tick s b).buttonState ≠ ButtonState.DEBOUNCE_PRESS →
      u16succ s.debounceCounter = s.pressDebouncePeriod) ∧
    (∀ b, s.buttonState = ButtonState.DEBOUNCE_RELEASE →
      (Button_Tick s b).buttonState ≠ ButtonState.DEBOUNCE_RELEASE →
      u16succ s.debounceCounter = s.releaseDebouncePeriod) ∧
    (s.buttonState = ButtonState.BUTTON_DOWN →
      s.longPressCounter ≤ s.longPressPeriod) ∧
    (∀ b, s.longPressCounter < (Button_Tick s b).longPressCounter →
      s.buttonState = ButtonState.BUTTON_DOWN ∧ b = true ∧
        s.longPressCounter < s.longPressPeriod) ∧
    (∀ b, s.buttonState = ButtonState.BUTTON_DOWN →
      s.longPressCounter = s.longPressPeriod →
      (Button_Tick s b).longPressCounter = s.longPressCounter) := by
  obtain ⟨h1, h2, h3⟩ := Reachable_CounterInv s hr
  exact ⟨fun h => Nat.le_of_lt (h1 h), fun h => Nat.le_of_lt (h2 h),
    fun b => (Button_Tick_debounce_exit s b).1,
    fun b => (Button_Tick_debounce_exit s b).2,
    h3,
    fun b => Button_Tick_lpc_increase s b,
    fun b => Button_Tick_lpc_freeze s b⟩

/-- A reachable state: a five-tick press-debounce window, one tick in. -/
def c6reach : Button :=
  Button_Ticks (Button_InitWithLongPressMs zeroButton 50 50 300 10) [true]

/-- A reachable Held state: zero debounce, thirty-tick long press,
one asserted sample. -/
def c6held : Button :=
  Button_Ticks (Button_InitWithLongPressMs zeroButton 0 0 300 10) [true]

/-- Witness for C6 at concrete reachable states. -/
theorem C6_counter_invariants_witness :
    c6reach.debounceCounter ≤ c6reach.pressDebouncePeriod ∧
    c6held.longPressCounter ≤ c6held.longPressPeriod :=
  ⟨(C6_counter_invariants c6reach
      ⟨zeroButton, 50, 50, 300, 10, [true], rfl⟩).1 (by decide),
   (C6_counter_invariants c6held
      ⟨zeroButton, 0, 0, 300, 10, [true], rfl⟩).2.2.2.2.1 (by decide)⟩

end ButtonLib

namespace ButtonLib

/-- Ticking over a concatenation of sample lists composes. -/
theorem Button_Ticks_append (s : Button) (xs ys : List Bool) :
    Button_Ticks s (xs ++ ys) = Button_Ticks (Button_Ticks s xs) ys := by
  simp [Button_Ticks, List.foldl_append]

/-- Ticking peels one sample off the front of the list. -/
theorem Button_Ticks_cons (s : Button) (b : Bool) (bs : List Bool) :
    Button_Ticks s (b :: bs) = Button_Ticks (Button_Tick s b) bs := rfl

/-- Ticking over a single sample is one tick. -/
theorem Button_Ticks_one (s : Button) (b : Bool) :
    Button_Ticks s [b] = Button_Tick s b := rfl

/-- In `BUTTON_UP` a deasserted sample leaves the instance unchanged. -/
theorem Button_Tick_up_idle (s : Button)
    (hst : s.buttonState = ButtonState.BUTTON_UP) :
    Button_Tick s false = s := by
  simp [Button_Tick, hst]

/-- In `BUTTON_UP` any run of deasserted samples leaves the instance
unchanged. -/
theorem Button_Ticks_up_idle (s : Button) (k : Nat)
    (hst : s.buttonState = ButtonState.BUTTON_UP) :
    Button_Ticks s (List.replicate k false) = s := by
  induction k with
  | zero => rfl
  | succ n ih =>
    rw [List.replicate_succ]
    show Button_Ticks (Button_Tick s false) (List.replicate n false) = s
    rw [Button_Tick_up_idle s hst]
    exact ih

/-- While the incremented debounce counter stays strictly below the
press-debounce threshold, a run of ticks in `DEBOUNCE_PRESS` only adds to
the counter, whatever the samples are. -/
theorem Button_Ticks_debounce_press_run (j : Nat) (s : Button) (b : Bool)
    (hst : s.buttonState = ButtonState.DEBOUNCE_PRESS)
    (hj : s.debounceCounter + j < s.pressDebouncePeriod)
    (hpp : s.pressDebouncePeriod ≤ 65536) :
    Button_Ticks s (List.replicate j b) =
      { s with debounceCounter := s.debounceCounter + j } := by
  induction j generalizing s with
  | zero => rfl
  | succ n ih =>
    rw [List.replicate_succ]
    show Button_Ticks (Button_Tick s b) (List.replicate n b) = _
    have hone : Button_Tick s b =
        { s with debounceCounter := s.debounceCounter + 1 } := by
      have hmod : u16succ s.debounceCounter = s.debounceCounter + 1 := by
        unfold u16succ; omega
      have hne : s.debounceCounter + 1 ≠ s.pressDebouncePeriod := by omega
      cases b <;> simp [Button_Tick, hst, hmod, hne]
    rw [hone]
    have := ih { s with debounceCounter := s.debounceCounter + 1 }
      (by simpa using hst) (by simp; omega) (by simpa using hpp)
    rw [this]
    simp [Nat.add_assoc, Nat.add_comm 1 n]

/-- On the tick where the counter reaches the press-debounce threshold
with the sample deasserted, the machine returns to `BUTTON_UP` without
touching the flags. -/
theorem Button_Tick_debounce_press_abort (s : Button)
    (hst : s.buttonState = ButtonState.DEBOUNCE_PRESS)
    (hc : u16succ s.debounceCounter = s.pressDebouncePeriod) :
    Button_Tick s false =
      { s with debounceCounter := s.pressDebouncePeriod,
               buttonState := ButtonState.BUTTON_UP } := by
  simp [Button_Tick, hst, hc]

/-- C7: with a positive press-debounce threshold, a press held for fewer
ticks than the threshold and then released (and kept released) raises no
buttonDownEvent and returns the machine to Released. -/
theorem C7_press_debounce_suppression (s : Button) (m k : Nat)
    (hst : s.buttonState = ButtonState.BUTTON_UP)
    (hd : s.flags.buttonDownEvent = false)
    (hm : 0 < m) (hmp : m < s.pressDebouncePeriod)
    (hpp : s.pressDebouncePeriod ≤ 65535)
    (hk : s.pressDebouncePeriod - m + 1 ≤ k) :
    (Button_Ticks s
        (List.replicate m true ++ List.replicate k false)).buttonState =
      ButtonState.BUTTON_UP ∧
    (Button_Ticks s
        (List.replicate m true ++ List.replicate k false)).flags.buttonDownEvent =
      false := by
  obtain ⟨m', rfl⟩ : ∃ m', m = m' + 1 := ⟨m - 1, by omega⟩
  have hfirst : Button_Tick s true =
      { s with buttonState := ButtonState.DEBOUNCE_PRESS,
               debounceCounter := 0 } := by
    have hpne : s.pressDebouncePeriod ≠ 0 := by omega
    simp [Button_Tick, hst, hpne]
  have hsplit : List.replicate k false =
      List.replicate (s.pressDebouncePeriod - (m' + 1)) false ++
        ([false] ++
          List.replicate (k - (s.pressDebouncePeriod - (m' + 1) + 1)) false) := by
    rw [show ([false] : List Bool) = List.replicate 1 false from rfl,
      ← List.replicate_add, ← List.replicate_add]
    congr 1
    omega
  rw [hsplit, List.replicate_succ, List.cons_append, Button_Ticks_cons, hfirst,
    Button_Ticks_append]
  rw [Button_Ticks_debounce_press_run m' _ true (by simp) (by simp; omega)
    (by simp; omega)]
  rw [Button_Ticks_append]
  rw [Button_Ticks_debounce_press_run (s.pressDebouncePeriod - (m' + 1)) _ false
    (by simp) (by simp; omega) (by simp; omega)]
  rw [Button_Ticks_append, Button_Ticks_one]
  rw [Button_Tick_debounce_press_abort _ (by simp) (by simp [u16succ]; omega)]
  rw [Button_Ticks_up_idle _ _ (by simp)]
  exact ⟨rfl, hd⟩

/-- A Released instance with a three-tick press-debounce window. -/
def relPd3 : Button := { zeroButton with pressDebouncePeriod := 3 }

/-- Witness for C7: one asserted tick against a three-tick window,
followed by three deasserted ticks. -/
theorem C7_press_debounce_suppression_witness :
    (Button_Ticks relPd3
        (List.replicate 1 true ++ List.replicate 3 false)).buttonState =
      ButtonState.BUTTON_UP ∧
    (Button_Ticks relPd3
        (List.replicate 1 true ++ List.replicate 3 false)).flags.buttonDownEvent =
      false :=
  C7_press_debounce_suppression relPd3 1 3 rfl rfl (by decide) (by decide)
    (by decide) (by decide)

end ButtonLib
